import Mathlib

/-!
Shallow embedding of the decision-engine core of the cadence workflow client
(files `client/flow/event_handlers.go`, `client/flow/worker_interfaces.go` and
the workflow-definition adapter), together with proofs of the behavioural
properties stated in the specification.

Modelling conventions:
* Go byte slices become `List Nat`; a nil-able slice or pointer becomes an
  `Option`.  Thrift-generated enums (which are `int32`-backed in Go) become
  `Int` with named constants.  The `int32` activity-id counter is an `Int`
  reduced by explicit two's-complement wrap-around.
* Go maps become association lists with replace-on-insert semantics
  (`mapInsert` / `mapLookup`).
* Stored Go callbacks (`ResultHandler` closures) are represented by opaque
  identifiers of a type parameter `κ`; their behaviour is an explicit
  interpretation function `run : κ → args → state → state` passed to the
  event handler, and each invocation is additionally recorded in a ghost
  trace (`invocations`) so that "the callback is invoked" is observable.
  Calls to the completion handler are likewise recorded in the ghost trace
  `completeCalls`.
* A Go nil-pointer dereference is modelled by a distinguished `nilPanic`
  outcome.
-/

namespace Flow

/-- Byte strings (`[]byte`). -/
abbrev Bytes := List Nat

/-- Model of `[]byte(s)` for a Go string; code points coincide with the
UTF-8 bytes for the ASCII strings used here. -/
def strBytes (s : String) : Bytes :=
  s.toList.map (fun c => c.toNat)

/-- Thrift `ActivityType` record. -/
structure ActivityType where
  name : String
deriving DecidableEq

/-- Thrift `TaskList` record (its `Name` field is a nil-able pointer). -/
structure TaskList where
  name : Option String
deriving DecidableEq

/-- Thrift enum `DecisionType` (an `int32` on the wire). -/
abbrev DecisionType := Int

def DecisionType_ScheduleActivityTask : DecisionType := 0
def DecisionType_CompleteWorkflowExecution : DecisionType := 1
def DecisionType_FailWorkflowExecution : DecisionType := 2
def DecisionType_StartTimer : DecisionType := 3
def DecisionType_CancelTimer : DecisionType := 4

/-- Modelled from the spec: the generated thrift record
`ScheduleActivityTaskDecisionAttributes` is not part of the repository
sources; its fields follow §3 of the specification (the ActivityRequest data
model, which includes a heartbeat timeout) and the field accesses made by
`ExecuteActivity` in `event_handlers.go`.  Pointer-typed fields are `Option`
and start out nil. -/
structure ScheduleActivityTaskDecisionAttributes where
  activityId : Option String := none
  activityType : Option ActivityType := none
  taskList : Option TaskList := none
  input : Option Bytes := none
  scheduleToCloseTimeoutSeconds : Option Int := none
  scheduleToStartTimeoutSeconds : Option Int := none
  startToCloseTimeoutSeconds : Option Int := none
  heartbeatTimeoutSeconds : Option Int := none
deriving DecidableEq

/-- Thrift `Decision` record: a discriminant plus the variant-specific
attribute record used by this core. -/
structure Decision where
  decisionType : Option DecisionType := none
  scheduleActivityTaskDecisionAttributes : Option ScheduleActivityTaskDecisionAttributes := none
deriving DecidableEq

/-- The `flow.Error` values the core constructs: `errorImpl` (from
`NewError`), `ActivityTaskFailedError` and `ActivityTaskTimeoutError`. -/
inductive ErrVal where
  | errorImpl (reason : String) (details : Option Bytes)
  | activityTaskFailed (reason : String) (details : Option Bytes)
  | activityTaskTimeout (timeoutType : Int)
deriving DecidableEq

/-- `ExecuteActivityParameters` from `worker_interfaces.go` (lines 54-63). -/
structure ExecuteActivityParameters where
  ActivityID : Option String
  ActivityType : ActivityType
  TaskListName : String
  Input : Option Bytes
  ScheduleToCloseTimeoutSeconds : Int
  ScheduleToStartTimeoutSeconds : Int
  StartToCloseTimeoutSeconds : Int
  HeartbeatTimeoutSeconds : Int
deriving DecidableEq

/-- Go map lookup on the association-list model. -/
def mapLookup {α β : Type} [DecidableEq α] : List (α × β) → α → Option β
  | [], _ => none
  | (k, v) :: rest, a => if k = a then some v else mapLookup rest a

/-- Go map insertion: replaces the value when the key is already present. -/
def mapInsert {α β : Type} [DecidableEq α] : List (α × β) → α → β → List (α × β)
  | [], a, b => [(a, b)]
  | (k, v) :: rest, a, b =>
    if k = a then (a, b) :: rest else (k, v) :: mapInsert rest a b

/-- Two's-complement wrap-around of Go `int32` arithmetic. -/
def int32wrap (n : Int) : Int :=
  (n + 2 ^ 31) % 2 ^ 32 - 2 ^ 31

/-- The mutable `workflowContext` of `event_handlers.go` (lines 24-34),
extended with the ghost traces `completeCalls` and `invocations` and with an
extension field `ext : ε` housing whatever additional state the callback
interpretation needs (for the concrete dispatcher model, the coroutine
state).  Callbacks stored in `scheduledActivites` are nil-able Go function
values: `Option κ`. -/
structure WfState (κ ε : Type) where
  scheduledActivites : List (String × Option κ)
  scheduledEventIDToActivityID : List (Int × String)
  counterID : Int
  executeDecisions : List Decision
  completeCalls : List (Option Bytes × Option ErrVal)
  invocations : List (κ × Option Bytes × Option ErrVal)
  ext : ε

/-- The context state built by `newWorkflowExecutionEventHandler`
(lines 39-46): empty maps, zero counter, empty decision list. -/
def initialWfState {κ ε : Type} (e : ε) : WfState κ ε :=
  { scheduledActivites := []
    scheduledEventIDToActivityID := []
    counterID := 0
    executeDecisions := []
    completeCalls := []
    invocations := []
    ext := e }

/-- `workflowContext.Complete` (lines 54-56): forwards to the completion
handler, recorded here in the ghost trace. -/
def Complete {κ ε : Type} (wc : WfState κ ε) (result : Option Bytes)
    (err : Option ErrVal) : WfState κ ε :=
  { wc with completeCalls := wc.completeCalls ++ [(result, err)] }

/-- `workflowContext.GenerateActivityID` (lines 58-62): returns the decimal
form of the current counter, then increments the `int32` counter. -/
def GenerateActivityID {κ ε : Type} (wc : WfState κ ε) : String × WfState κ ε :=
  (toString wc.counterID, { wc with counterID := int32wrap (wc.counterID + 1) })

/-- `workflowContext.SwapExecuteDecisions` (lines 64-68). -/
def SwapExecuteDecisions {κ ε : Type} (wc : WfState κ ε)
    (decisions : List Decision) : List Decision × WfState κ ε :=
  (wc.executeDecisions, { wc with executeDecisions := decisions })

/-- `workflowContext.CreateNewDecision` (lines 70-74). -/
def CreateNewDecision (decisionType : DecisionType) : Decision :=
  { decisionType := some decisionType }

/-- `workflowContext.ExecuteActivity` (lines 76-96): assigns the activity id,
populates the schedule-activity attributes (three timeouts; the heartbeat
timeout is never written), appends the decision and registers the callback
under the activity id. -/
def ExecuteActivity {κ ε : Type} (wc : WfState κ ε)
    (parameters : ExecuteActivityParameters) (callback : Option κ) : WfState κ ε :=
  let (aid, wc1) :=
    match parameters.ActivityID with
    | none => GenerateActivityID wc
    | some a => (a, wc)
  let scheduleTaskAttr : ScheduleActivityTaskDecisionAttributes :=
    { activityId := some aid
      activityType := some parameters.ActivityType
      taskList := some { name := some parameters.TaskListName }
      input := parameters.Input
      scheduleToCloseTimeoutSeconds := some parameters.ScheduleToCloseTimeoutSeconds
      startToCloseTimeoutSeconds := some parameters.StartToCloseTimeoutSeconds
      scheduleToStartTimeoutSeconds := some parameters.ScheduleToStartTimeoutSeconds }
  let decision : Decision :=
    { CreateNewDecision DecisionType_ScheduleActivityTask with
        scheduleActivityTaskDecisionAttributes := some scheduleTaskAttr }
  { wc1 with
      executeDecisions := wc1.executeDecisions ++ [decision]
      scheduledActivites := mapInsert wc1.scheduledActivites aid callback }

/-- Thrift enum `EventType` (an `int32` on the wire); constants in the order
of §3 of the specification. -/
abbrev EventType := Int

def EventType_WorkflowExecutionStarted : EventType := 0
def EventType_WorkflowExecutionCompleted : EventType := 1
def EventType_WorkflowExecutionFailed : EventType := 2
def EventType_WorkflowExecutionTimedOut : EventType := 3
def EventType_DecisionTaskScheduled : EventType := 4
def EventType_DecisionTaskStarted : EventType := 5
def EventType_DecisionTaskCompleted : EventType := 6
def EventType_DecisionTaskTimedOut : EventType := 7
def EventType_ActivityTaskScheduled : EventType := 8
def EventType_ActivityTaskStarted : EventType := 9
def EventType_ActivityTaskCompleted : EventType := 10
def EventType_ActivityTaskFailed : EventType := 11
def EventType_ActivityTaskTimedOut : EventType := 12
def EventType_TimerStarted : EventType := 13
def EventType_TimerFired : EventType := 14

/-- The list of event-type discriminants handled by the `ProcessEvent`
switch (its `case` arms, lines 103-139). -/
def handledEventTypes : List EventType :=
  [EventType_WorkflowExecutionStarted, EventType_WorkflowExecutionCompleted,
   EventType_WorkflowExecutionFailed, EventType_WorkflowExecutionTimedOut,
   EventType_DecisionTaskScheduled, EventType_DecisionTaskStarted,
   EventType_DecisionTaskCompleted, EventType_DecisionTaskTimedOut,
   EventType_ActivityTaskScheduled, EventType_ActivityTaskStarted,
   EventType_ActivityTaskCompleted, EventType_ActivityTaskFailed,
   EventType_ActivityTaskTimedOut, EventType_TimerStarted,
   EventType_TimerFired]

/-- `WorkflowExecutionStartedEventAttributes` (only the field the core
reads). -/
structure WorkflowExecutionStartedEventAttributes where
  input : Option Bytes
deriving DecidableEq

/-- `ActivityTaskScheduledEventAttributes` (only the field the core reads);
`activityId` is a nil-able pointer with a nil-safe getter. -/
structure ActivityTaskScheduledEventAttributes where
  activityId : Option String
deriving DecidableEq

/-- `ActivityTaskCompletedEventAttributes`: nil-able result slice and
scheduled-event-id pointer. -/
structure ActivityTaskCompletedEventAttributes where
  result_ : Option Bytes
  scheduledEventId : Option Int
deriving DecidableEq

/-- `ActivityTaskFailedEventAttributes`: `reason` is a nil-able string
pointer (dereferenced without a check by `handleActivityTaskFailed`),
`details` a nil-able byte slice. -/
structure ActivityTaskFailedEventAttributes where
  reason : Option String
  details : Option Bytes
  scheduledEventId : Option Int
deriving DecidableEq

/-- `ActivityTaskTimedOutEventAttributes`. -/
structure ActivityTaskTimedOutEventAttributes where
  timeoutType : Option Int
  scheduledEventId : Option Int
deriving DecidableEq

/-- `HistoryEvent`: discriminant, event id, and the nil-able attribute
records read by this core. -/
structure HistoryEvent where
  eventId : Option Int := none
  eventType : EventType := 0
  workflowExecutionStartedEventAttributes :
    Option WorkflowExecutionStartedEventAttributes := none
  activityTaskScheduledEventAttributes :
    Option ActivityTaskScheduledEventAttributes := none
  activityTaskCompletedEventAttributes :
    Option ActivityTaskCompletedEventAttributes := none
  activityTaskFailedEventAttributes :
    Option ActivityTaskFailedEventAttributes := none
  activityTaskTimedOutEventAttributes :
    Option ActivityTaskTimedOutEventAttributes := none
deriving DecidableEq

/-- Thrift getter `GetEventId` (zero default). -/
def HistoryEvent.GetEventId (e : HistoryEvent) : Int :=
  e.eventId.getD 0

/-- Nil-safe getter `GetActivityId` on scheduled-event attributes. -/
def getScheduledActivityId (a : Option ActivityTaskScheduledEventAttributes) : String :=
  (a.bind (·.activityId)).getD ""

/-- Nil-safe getter `GetScheduledEventId` on completed-event attributes. -/
def getCompletedScheduledEventId (a : Option ActivityTaskCompletedEventAttributes) : Int :=
  (a.bind (·.scheduledEventId)).getD 0

/-- Nil-safe getter `GetResult_` on completed-event attributes. -/
def getCompletedResult (a : Option ActivityTaskCompletedEventAttributes) : Option Bytes :=
  a.bind (·.result_)

/-- Nil-safe getter `GetScheduledEventId` on failed-event attributes. -/
def getFailedScheduledEventId (a : Option ActivityTaskFailedEventAttributes) : Int :=
  (a.bind (·.scheduledEventId)).getD 0

/-- Nil-safe getter `GetScheduledEventId` on timed-out-event attributes. -/
def getTimedOutScheduledEventId (a : Option ActivityTaskTimedOutEventAttributes) : Int :=
  (a.bind (·.scheduledEventId)).getD 0

/-- Nil-safe getter `GetTimeoutType` on timed-out-event attributes. -/
def getTimeoutType (a : Option ActivityTaskTimedOutEventAttributes) : Int :=
  (a.bind (·.timeoutType)).getD 0

/-- Interpretation of the stored Go `ResultHandler` closures: given the
callback identifier and the `(result, err)` arguments, transform the
workflow state. -/
abbrev RunCallback (κ ε : Type) :=
  κ → Option Bytes → Option ErrVal → WfState κ ε → WfState κ ε

/-- A `WorkflowDefinition` as the event handler uses it: `Execute` runs the
user workflow (through the dispatcher) against the workflow-context state. -/
structure WorkflowDefinition (κ ε : Type) where
  execute : WfState κ ε → Option Bytes → WfState κ ε

/-- Workflow type name (the factory key). -/
abbrev WorkflowType := String

/-- `workflowExecutionEventHandler` (lines 17-21): the workflow context plus
the definition factory and the lazily created workflow definition. -/
structure WEH (κ ε : Type) where
  ctx : WfState κ ε
  workflowType : WorkflowType
  workflowDefinitionFactory : WorkflowType → Except ErrVal (WorkflowDefinition κ ε)
  workflowDefinition : Option (WorkflowDefinition κ ε)

/-- `newWorkflowExecutionEventHandler` (lines 37-48). -/
def newWorkflowExecutionEventHandler {κ ε : Type} (wt : WorkflowType)
    (factory : WorkflowType → Except ErrVal (WorkflowDefinition κ ε))
    (e : ε) : WEH κ ε :=
  { ctx := initialWfState e
    workflowType := wt
    workflowDefinitionFactory := factory
    workflowDefinition := none }

/-- The processing errors `ProcessEvent` can return (abstracting the
`fmt.Errorf` messages). -/
inductive ProcErr where
  | nilEvent
  | missingEventHandler (eventType : EventType)
  | factoryFailed (err : ErrVal)
  | unableToFindActivityID (scheduledEventId : Int)
  | unableToFindCallbackHandler (activityId : String)
deriving DecidableEq

/-- Outcome of `ProcessEvent`: the Go `(decisions, error)` pair together
with the mutated handler, or a run-time nil-pointer panic. -/
inductive PEResult (κ ε : Type) where
  | ret (weh : WEH κ ε) (decisions : Option (List Decision)) (err : Option ProcErr)
  | nilPanic

/-- Record a callback invocation in the ghost trace and apply the callback
interpretation, exactly where the Go code calls `handler(...)`. -/
def invokeCallback {κ ε : Type} (run : RunCallback κ ε) (st : WfState κ ε)
    (cb : κ) (r : Option Bytes) (e : Option ErrVal) : WfState κ ε :=
  run cb r e { st with invocations := st.invocations ++ [(cb, r, e)] }

/-- `handleWorkflowExecutionStarted` (lines 153-163): build the workflow
definition via the factory, run it on the input, drain the decisions.
Accessing `attributes.Input` on a nil attribute record is a nil panic. -/
def handleWorkflowExecutionStarted {κ ε : Type} (weh : WEH κ ε)
    (attributes : Option WorkflowExecutionStartedEventAttributes) : PEResult κ ε :=
  match weh.workflowDefinitionFactory weh.workflowType with
  | .error e => .ret weh none (some (.factoryFailed e))
  | .ok wd =>
    match attributes with
    | none => .nilPanic
    | some attrs =>
      let weh1 := { weh with workflowDefinition := some wd }
      let st1 := wd.execute weh1.ctx attrs.input
      let (ds, st2) := SwapExecuteDecisions st1 []
      .ret { weh1 with ctx := st2 } (some ds) none

/-- `handleActivityTaskCompleted` (lines 165-182): resolve
`scheduledEventId → activityId → handler`; a missing entry at either step is
a processing error; a non-nil handler is invoked with `(result, nil)`; the
pending decisions are drained. -/
def handleActivityTaskCompleted {κ ε : Type} (run : RunCallback κ ε) (weh : WEH κ ε)
    (attributes : Option ActivityTaskCompletedEventAttributes) : PEResult κ ε :=
  match mapLookup weh.ctx.scheduledEventIDToActivityID
      (getCompletedScheduledEventId attributes) with
  | none => .ret weh none
      (some (.unableToFindActivityID (getCompletedScheduledEventId attributes)))
  | some activityID =>
    match mapLookup weh.ctx.scheduledActivites activityID with
    | none => .ret weh none (some (.unableToFindCallbackHandler activityID))
    | some handler =>
      let st1 :=
        match handler with
        | none => weh.ctx
        | some cb => invokeCallback run weh.ctx cb (getCompletedResult attributes) none
      let (ds, st2) := SwapExecuteDecisions st1 []
      .ret { weh with ctx := st2 } (some ds) none

/-- `handleActivityTaskFailed` (lines 184-204): same resolution; a non-nil
handler receives `ActivityTaskFailedError{reason: *attributes.Reason,
details: attributes.Details}`; the unguarded `*attributes.Reason` is a nil
panic when the attribute record or its `Reason` field is nil. -/
def handleActivityTaskFailed {κ ε : Type} (run : RunCallback κ ε) (weh : WEH κ ε)
    (attributes : Option ActivityTaskFailedEventAttributes) : PEResult κ ε :=
  match mapLookup weh.ctx.scheduledEventIDToActivityID
      (getFailedScheduledEventId attributes) with
  | none => .ret weh none
      (some (.unableToFindActivityID (getFailedScheduledEventId attributes)))
  | some activityID =>
    match mapLookup weh.ctx.scheduledActivites activityID with
    | none => .ret weh none (some (.unableToFindCallbackHandler activityID))
    | some handler =>
      match handler with
      | none =>
        let (ds, st2) := SwapExecuteDecisions weh.ctx []
        .ret { weh with ctx := st2 } (some ds) none
      | some cb =>
        match attributes with
        | none => .nilPanic
        | some a =>
          match a.reason with
          | none => .nilPanic
          | some r =>
            let st1 := invokeCallback run weh.ctx cb none
              (some (.activityTaskFailed r a.details))
            let (ds, st2) := SwapExecuteDecisions st1 []
            .ret { weh with ctx := st2 } (some ds) none

/-- `handleActivityTaskTimedOut` (lines 206-224): same resolution; a non-nil
handler receives `ActivityTaskTimeoutError{TimeoutType: ...}`. -/
def handleActivityTaskTimedOut {κ ε : Type} (run : RunCallback κ ε) (weh : WEH κ ε)
    (attributes : Option ActivityTaskTimedOutEventAttributes) : PEResult κ ε :=
  match mapLookup weh.ctx.scheduledEventIDToActivityID
      (getTimedOutScheduledEventId attributes) with
  | none => .ret weh none
      (some (.unableToFindActivityID (getTimedOutScheduledEventId attributes)))
  | some activityID =>
    match mapLookup weh.ctx.scheduledActivites activityID with
    | none => .ret weh none (some (.unableToFindCallbackHandler activityID))
    | some handler =>
      let st1 :=
        match handler with
        | none => weh.ctx
        | some cb => invokeCallback run weh.ctx cb none
            (some (.activityTaskTimeout (getTimeoutType attributes)))
      let (ds, st2) := SwapExecuteDecisions st1 []
      .ret { weh with ctx := st2 } (some ds) none

/-- `ProcessEvent` (lines 98-144): nil-event check, then dispatch on the
event discriminant; unrecognized discriminants give the
"missing event handler" error; the no-op arms return `(nil, nil)`. -/
def ProcessEvent {κ ε : Type} (run : RunCallback κ ε) (weh : WEH κ ε)
    (event : Option HistoryEvent) : PEResult κ ε :=
  match event with
  | none => .ret weh none (some .nilEvent)
  | some ev =>
    if ev.eventType = EventType_WorkflowExecutionStarted then
      handleWorkflowExecutionStarted weh ev.workflowExecutionStartedEventAttributes
    else if ev.eventType = EventType_WorkflowExecutionCompleted then .ret weh none none
    else if ev.eventType = EventType_WorkflowExecutionFailed then .ret weh none none
    else if ev.eventType = EventType_WorkflowExecutionTimedOut then .ret weh none none
    else if ev.eventType = EventType_DecisionTaskScheduled then .ret weh none none
    else if ev.eventType = EventType_DecisionTaskStarted then .ret weh none none
    else if ev.eventType = EventType_DecisionTaskTimedOut then .ret weh none none
    else if ev.eventType = EventType_DecisionTaskCompleted then .ret weh none none
    else if ev.eventType = EventType_ActivityTaskScheduled then
      let attributes := ev.activityTaskScheduledEventAttributes
      let st1 := { weh.ctx with
        scheduledEventIDToActivityID :=
          mapInsert weh.ctx.scheduledEventIDToActivityID ev.GetEventId
            (getScheduledActivityId attributes) }
      .ret { weh with ctx := st1 } none none
    else if ev.eventType = EventType_ActivityTaskStarted then .ret weh none none
    else if ev.eventType = EventType_ActivityTaskCompleted then
      handleActivityTaskCompleted run weh ev.activityTaskCompletedEventAttributes
    else if ev.eventType = EventType_ActivityTaskFailed then
      handleActivityTaskFailed run weh ev.activityTaskFailedEventAttributes
    else if ev.eventType = EventType_ActivityTaskTimedOut then
      handleActivityTaskTimedOut run weh ev.activityTaskTimedOutEventAttributes
    else if ev.eventType = EventType_TimerStarted then .ret weh none none
    else if ev.eventType = EventType_TimerFired then .ret weh none none
    else .ret weh none (some (.missingEventHandler ev.eventType))

/-- Feed a history, event by event, to the handler; collect each step's
`(decisions, error)` pair.  A nil panic aborts the run. -/
def processHistory {κ ε : Type} (run : RunCallback κ ε) (weh : WEH κ ε) :
    List (Option HistoryEvent) → List (Option (List Decision) × Option ProcErr)
  | [] => []
  | e :: rest =>
    match ProcessEvent run weh e with
    | .ret weh1 ds err => (ds, err) :: processHistory run weh1 rest
    | .nilPanic => []

/-- Feed a history to the handler and return the final handler state.
A nil panic aborts the run. -/
def runHandler {κ ε : Type} (run : RunCallback κ ε) (weh : WEH κ ε) :
    List (Option HistoryEvent) → WEH κ ε
  | [] => weh
  | e :: rest =>
    match ProcessEvent run weh e with
    | .ret weh1 _ _ => runHandler run weh1 rest
    | .nilPanic => weh

/-- The `workflowResult` record of the workflow-definition adapter. -/
structure WorkflowResultS where
  workflowResult : Option Bytes
  error : Option ErrVal
deriving DecidableEq

/-- A panic recovered by `ExecuteUntilAllBlocked`: its message
(`panicErr.Error()`) and captured stack trace. -/
structure PanicError where
  msg : String
  stackTrace : String
deriving DecidableEq

/-- The adapter-side state of `contextImpl` beyond the workflow context: the
shared result slot, the dispatcher's closed flag, and (for a concrete
workflow) the coroutine state `σ`.  Lives in the `ext` field of `WfState`. -/
structure DispExt (σ : Type) where
  resultSlot : Option WorkflowResultS
  dispatcherClosed : Bool
  coState : σ
deriving DecidableEq

/-- Workflow-context state whose extension carries the dispatcher state. -/
abbrev DSt (κ σ : Type) := WfState κ (DispExt σ)

/-- `dispatcher.Close()`. -/
def closeDispatcher {κ σ : Type} (c : DSt κ σ) : DSt κ σ :=
  { c with ext := { c.ext with dispatcherClosed := true } }

/-- `contextImpl.executeDispatcher` (workflow-definition adapter, lines
113-131): pump the dispatcher via `ExecuteUntilAllBlocked` (the `pump`
parameter — the coroutine scheduler itself is outside this repository's
sources); on a recovered panic report
`Complete(nil, NewError(panic.msg, []byte(panic.stackTrace)))` and close; on
success with an empty result slot just return; otherwise report
`Complete(result, err)` and close. -/
def executeDispatcher {κ σ : Type}
    (pump : DSt κ σ → DSt κ σ × Option PanicError) (c : DSt κ σ) : DSt κ σ :=
  let (c1, panicErr) := pump c
  match panicErr with
  | some p =>
    closeDispatcher (Complete c1 none
      (some (.errorImpl p.msg (some (strBytes p.stackTrace)))))
  | none =>
    match c1.ext.resultSlot with
    | none => c1
    | some r => closeDispatcher (Complete c1 r.workflowResult r.error)

/-! ### A concrete single-activity workflow, dispatcher included

The coroutine runtime (`common/coroutine`) is not among the repository
sources; the pump below is modelled from the spec (§4.1): coroutines advance
to a fixed point, and a closed dispatcher rejects a pump (modelled as a
no-op that reports no panic).  The concrete workflow is the specification's
scenario S1: the root coroutine schedules one activity through the
synchronous `ExecuteActivity` facade (adapter lines 133-149) and returns the
activity's result. -/

/-- Coroutine state of the concrete workflow: the root coroutine's phase
(0 = not yet run, 1 = blocked on `Recv`, 2 = returned), the result/err slots
captured by the facade's callback, and the occupancy of the 1-buffer result
channel. -/
structure Co1 where
  rootPhase : Nat
  frameResult : Option Bytes
  frameErr : Option ErrVal
  chanBuf : Bool
deriving DecidableEq

/-- State of the concrete system: callbacks are identified by `Nat` (the
root's facade callback is `0`). -/
abbrev St1 := DSt Nat Co1

/-- The activity request issued by the concrete workflow (auto-generated
activity id). -/
def params1 : ExecuteActivityParameters :=
  { ActivityID := none
    ActivityType := { name := "Foo" }
    TaskListName := "tl"
    Input := some [120]
    ScheduleToCloseTimeoutSeconds := 60
    ScheduleToStartTimeoutSeconds := 20
    StartToCloseTimeoutSeconds := 30
    HeartbeatTimeoutSeconds := 0 }

/-- Replace the coroutine state. -/
def setCo1 (c : St1) (co : Co1) : St1 :=
  { c with ext := { c.ext with coState := co } }

/-- Modelled from the spec: `Dispatcher.ExecuteUntilAllBlocked` (§4.1) for
the concrete workflow.  A closed dispatcher rejects the pump (no-op, no
panic).  Phase 0: the root coroutine calls the facade, which invokes the
asynchronous `ExecuteActivity` with callback `0` and blocks on `Recv` of the
empty channel.  Phase 1: when the channel holds a value, `Recv` consumes it,
the facade returns the captured pair, and the root writes the result slot
and finishes.  Phase 2: nothing is runnable. -/
def pump1 (c : St1) : St1 × Option PanicError :=
  if c.ext.dispatcherClosed then (c, none)
  else
    match c.ext.coState.rootPhase with
    | 0 =>
      let c1 := ExecuteActivity c params1 (some 0)
      (setCo1 c1 { c1.ext.coState with rootPhase := 1 }, none)
    | 1 =>
      if c.ext.coState.chanBuf then
        let co := c.ext.coState
        let c1 := setCo1 c { co with chanBuf := false, rootPhase := 2 }
        ({ c1 with ext := { c1.ext with
            resultSlot := some { workflowResult := co.frameResult, error := co.frameErr } } },
          none)
      else (c, none)
    | _ => (c, none)

/-- The facade's callback (adapter lines 136-146): capture `(result, err)`
into the enclosing frame, `SendAsync(true)` on the 1-buffer channel (the
buffer is empty at every invocation in the modelled runs, so the send is
accepted), then re-drive `executeDispatcher`. -/
def run1 : RunCallback Nat (DispExt Co1) := fun _cb r e c =>
  let co := c.ext.coState
  let c1 := setCo1 c { co with frameResult := r, frameErr := e, chanBuf := true }
  executeDispatcher pump1 c1

/-- `workflowDefinition.Execute` (adapter lines 91-105) for the concrete
workflow: allocate a fresh result slot and dispatcher with the root
coroutine registered, then pump. -/
def wfDef1 : WorkflowDefinition Nat (DispExt Co1) :=
  { execute := fun c _input =>
      executeDispatcher pump1
        { c with ext :=
          { resultSlot := none
            dispatcherClosed := false
            coState := { rootPhase := 0, frameResult := none, frameErr := none, chanBuf := false } } } }

/-- Fresh event handler hosting the concrete workflow. -/
def weh1 : WEH Nat (DispExt Co1) :=
  newWorkflowExecutionEventHandler "wt1" (fun _ => .ok wfDef1)
    { resultSlot := none
      dispatcherClosed := false
      coState := { rootPhase := 0, frameResult := none, frameErr := none, chanBuf := false } }

/-- `WorkflowExecutionStarted{input="x"}`. -/
def startedEv1 : Option HistoryEvent :=
  some { eventType := EventType_WorkflowExecutionStarted
         workflowExecutionStartedEventAttributes := some { input := some [120] } }

/-- `ActivityTaskScheduled{eventId=5, activityId="0"}`. -/
def schedEv1 : Option HistoryEvent :=
  some { eventId := some 5
         eventType := EventType_ActivityTaskScheduled
         activityTaskScheduledEventAttributes := some { activityId := some "0" } }

/-- `ActivityTaskCompleted{scheduledEventId=5, result="y"}`. -/
def compEv1 : Option HistoryEvent :=
  some { eventType := EventType_ActivityTaskCompleted
         activityTaskCompletedEventAttributes :=
           some { result_ := some [121], scheduledEventId := some 5 } }

/-- The history on which `Complete` fires twice: the started event, the
activity's scheduled event, and the matching completed event delivered
twice (its callback entry is never removed from `scheduledActivites`). -/
def hist1 : List (Option HistoryEvent) :=
  [startedEv1, schedEv1, compEv1, compEv1]

/-! ### Auxiliary definitions used by the theorems below -/

/-- An `ActivityTaskScheduled{eventId=E, activityId=A}` history event. -/
def mkScheduledEvent (E : Int) (A : String) : HistoryEvent :=
  { eventId := some E
    eventType := EventType_ActivityTaskScheduled
    activityTaskScheduledEventAttributes := some { activityId := some A } }

/-- An `ActivityTaskCompleted{scheduledEventId=E, result=res}` event. -/
def mkCompletedEvent (E : Int) (res : Option Bytes) : HistoryEvent :=
  { eventType := EventType_ActivityTaskCompleted
    activityTaskCompletedEventAttributes :=
      some { result_ := res, scheduledEventId := some E } }

/-- An `ActivityTaskFailed{scheduledEventId=E, reason, details}` event. -/
def mkFailedEvent (E : Int) (r : String) (details : Option Bytes) : HistoryEvent :=
  { eventType := EventType_ActivityTaskFailed
    activityTaskFailedEventAttributes :=
      some { reason := some r, details := details, scheduledEventId := some E } }

/-- An `ActivityTaskTimedOut{scheduledEventId=E, timeoutType=tt}` event. -/
def mkTimedOutEvent (E : Int) (tt : Int) : HistoryEvent :=
  { eventType := EventType_ActivityTaskTimedOut
    activityTaskTimedOutEventAttributes :=
      some { timeoutType := some tt, scheduledEventId := some E } }


/-- The ids produced by `n` successive `GenerateActivityID` calls. -/
def genIDs {κ ε : Type} (wc : WfState κ ε) : Nat → List String
  | 0 => []
  | n + 1 =>
    let (a, wc1) := GenerateActivityID wc
    a :: genIDs wc1 n

/-- The activity id `ExecuteActivity` resolves for a request on a given
state: the user-provided id, or the generated one. -/
def activityIdOf {κ ε : Type} (st : WfState κ ε) (p : ExecuteActivityParameters) : String :=
  match p.ActivityID with
  | some a => a
  | none => toString st.counterID

/-- A request with a user-chosen activity id, used to exhibit the behaviour
of two `ExecuteActivity` calls that resolve to the same id. -/
def dupParams : ExecuteActivityParameters :=
  { ActivityID := some "x"
    ActivityType := { name := "A" }
    TaskListName := "tl"
    Input := none
    ScheduleToCloseTimeoutSeconds := 10
    ScheduleToStartTimeoutSeconds := 20
    StartToCloseTimeoutSeconds := 30
    HeartbeatTimeoutSeconds := 0 }

/-- A request carrying a non-zero heartbeat timeout, used to exhibit that
`ExecuteActivity` never copies it into the decision attributes. -/
def hbParams : ExecuteActivityParameters :=
  { ActivityID := some "a"
    ActivityType := { name := "T" }
    TaskListName := "tl"
    Input := some [1]
    ScheduleToCloseTimeoutSeconds := 10
    ScheduleToStartTimeoutSeconds := 11
    StartToCloseTimeoutSeconds := 12
    HeartbeatTimeoutSeconds := 7 }

/-- Handler state after the concrete system processes the started event. -/
def weh1Started : WEH Nat (DispExt Co1) :=
  runHandler run1 weh1 [startedEv1]

/-- The decision batch the concrete system returns for the started event. -/
def batch1 : List Decision :=
  ((processHistory run1 weh1 [startedEv1]).headD (none, none)).1.getD []

/-- A pump that reports a recovered panic without touching the state; used
to exercise the panic branch of `executeDispatcher` at a concrete input. -/
def panicPump : DSt Nat Unit → DSt Nat Unit × Option PanicError :=
  fun c => (c, some { msg := "nope", stackTrace := "st" })

/-- A pump that reports success and leaves the result slot empty; used to
exercise the awaiting-more-history branch of `executeDispatcher` at a
concrete input. -/
def idlePump : DSt Nat Unit → DSt Nat Unit × Option PanicError :=
  fun c => (c, none)

/-- A concrete dispatcher-context state with an empty result slot. -/
def cIdle : DSt Nat Unit :=
  initialWfState { resultSlot := none, dispatcherClosed := false, coState := () }

/-- A callback interpretation that leaves the state unchanged; used to
instantiate the routing theorems at concrete inputs. -/
def runNoop : RunCallback Nat Unit := fun _ _ _ st => st

/-- A concrete handler state with `5 ↦ "0"` in the event-id map and a
non-nil callback `7` registered under activity id `"0"`. -/
def wehRouted : WEH Nat Unit :=
  { ctx := { (initialWfState () : WfState Nat Unit) with
      scheduledActivites := [("0", some 7)]
      scheduledEventIDToActivityID := [(5, "0")] }
    workflowType := "wt"
    workflowDefinitionFactory := fun _ => .error (.errorImpl "no factory" none)
    workflowDefinition := none }

/-- Failed-event attributes with a nil `Reason` pointer. -/
def failedAttrsNilReason : ActivityTaskFailedEventAttributes :=
  { reason := none, details := some [2], scheduledEventId := some 5 }

/-- Failed-event attributes with `Reason` present. -/
def failedAttrsReason : ActivityTaskFailedEventAttributes :=
  { reason := some "boom", details := some [3], scheduledEventId := some 5 }

/-- The drain property of a `ProcessEvent` outcome: whenever a decision
batch is returned, the pending-decision queue has been left empty. -/
def drainedAfter {κ ε : Type} : PEResult κ ε → Prop
  | .ret weh2 (some _) _ => weh2.ctx.executeDecisions = []
  | _ => True

/-! ## Helper lemmas -/

/-- A Go map lookup after insertion of the same key yields the inserted
value (inserting replaces any earlier binding). -/
theorem mapLookup_mapInsert_self {α β : Type} [DecidableEq α]
    (m : List (α × β)) (a : α) (b : β) :
    mapLookup (mapInsert m a b) a = some b := by
  induction m with
  | nil => simp [mapInsert, mapLookup]
  | cons kv rest ih =>
    obtain ⟨k, v⟩ := kv
    by_cases hk : k = a <;> simp [mapInsert, mapLookup, hk, ih]

/-- Within the `int32` range the wrap-around is the identity. -/
theorem int32wrap_eq_self (z : Int) (h1 : -(2 ^ 31) ≤ z) (h2 : z < 2 ^ 31) :
    int32wrap z = z := by
  have e31 : (2 : Int) ^ 31 = 2147483648 := by norm_num
  have e32 : (2 : Int) ^ 32 = 4294967296 := by norm_num
  unfold int32wrap
  rw [e31, e32]
  rw [e31] at h1 h2
  omega

/-- The ids generated from a counter value `c` are the decimal forms of
`c, c+1, …, c+n-1`, as long as the run stays inside the `int32` range. -/
theorem genIDs_from {κ ε : Type} :
    ∀ (n c : Nat) (wc : WfState κ ε), wc.counterID = (c : Int) → c + n < 2 ^ 31 →
      genIDs wc n = (List.range n).map (fun k => toString ((c + k : Nat) : Int))
  | 0, c, wc, _, _ => by simp [genIDs]
  | n + 1, c, wc, hc, hn => by
    have e31n : (2 : Nat) ^ 31 = 2147483648 := by norm_num
    have e31 : (2 : Int) ^ 31 = 2147483648 := by norm_num
    have hwrap : int32wrap ((c : Int) + 1) = (c : Int) + 1 := by
      apply int32wrap_eq_self
      · rw [e31]; omega
      · rw [e31]
        rw [e31n] at hn
        omega
    have hc1 : ({ wc with counterID := int32wrap (wc.counterID + 1) } :
        WfState κ ε).counterID = ((c + 1 : Nat) : Int) := by
      simp [hc, hwrap]
    have ih := genIDs_from n (c + 1) _ hc1 (by omega)
    simp only [genIDs, GenerateActivityID]
    rw [ih, List.range_succ_eq_map]
    simp only [List.map_cons, List.map_map]
    rw [hc, List.cons.injEq]
    refine ⟨rfl, ?_⟩
    apply List.map_congr_left
    intro k _
    have hck : c + 1 + k = c + (k + 1) := by omega
    simp [Function.comp, hck]

/-- `handleWorkflowExecutionStarted` leaves the pending-decision queue empty
whenever it returns a decision batch. -/
theorem started_drained {κ ε : Type} (weh : WEH κ ε)
    (attrs : Option WorkflowExecutionStartedEventAttributes) :
    drainedAfter (handleWorkflowExecutionStarted weh attrs) := by
  unfold handleWorkflowExecutionStarted
  repeat' split
  all_goals
    first
      | trivial
      | rfl
      | (rename_i heq
         simp only [SwapExecuteDecisions, Prod.mk.injEq] at heq
         simp [drainedAfter, ← heq.2])

/-- `handleActivityTaskCompleted` leaves the pending-decision queue empty
whenever it returns a decision batch. -/
theorem completed_drained {κ ε : Type} (run : RunCallback κ ε) (weh : WEH κ ε)
    (attrs : Option ActivityTaskCompletedEventAttributes) :
    drainedAfter (handleActivityTaskCompleted run weh attrs) := by
  unfold handleActivityTaskCompleted
  repeat' split
  all_goals
    first
      | trivial
      | rfl
      | (rename_i heq
         simp only [SwapExecuteDecisions, Prod.mk.injEq] at heq
         simp [drainedAfter, ← heq.2])

/-- `handleActivityTaskFailed` leaves the pending-decision queue empty
whenever it returns a decision batch. -/
theorem failed_drained {κ ε : Type} (run : RunCallback κ ε) (weh : WEH κ ε)
    (attrs : Option ActivityTaskFailedEventAttributes) :
    drainedAfter (handleActivityTaskFailed run weh attrs) := by
  unfold handleActivityTaskFailed
  repeat' split
  all_goals
    first
      | trivial
      | rfl
      | (rename_i heq
         simp only [SwapExecuteDecisions, Prod.mk.injEq] at heq
         simp [drainedAfter, ← heq.2])

/-- `handleActivityTaskTimedOut` leaves the pending-decision queue empty
whenever it returns a decision batch. -/
theorem timedOut_drained {κ ε : Type} (run : RunCallback κ ε) (weh : WEH κ ε)
    (attrs : Option ActivityTaskTimedOutEventAttributes) :
    drainedAfter (handleActivityTaskTimedOut run weh attrs) := by
  unfold handleActivityTaskTimedOut
  repeat' split
  all_goals
    first
      | trivial
      | rfl
      | (rename_i heq
         simp only [SwapExecuteDecisions, Prod.mk.injEq] at heq
         simp [drainedAfter, ← heq.2])

/-- Every `ProcessEvent` outcome satisfies the drain property. -/
theorem processEvent_drained {κ ε : Type} (run : RunCallback κ ε) (weh : WEH κ ε)
    (e : Option HistoryEvent) : drainedAfter (ProcessEvent run weh e) := by
  rcases e with _ | ev
  · trivial
  · unfold ProcessEvent
    by_cases h0 : ev.eventType = EventType_WorkflowExecutionStarted
    · simp only [if_pos h0]
      exact started_drained _ _
    simp only [if_neg h0]
    by_cases h1 : ev.eventType = EventType_WorkflowExecutionCompleted
    · simp only [if_pos h1]
      trivial
    simp only [if_neg h1]
    by_cases h2 : ev.eventType = EventType_WorkflowExecutionFailed
    · simp only [if_pos h2]
      trivial
    simp only [if_neg h2]
    by_cases h3 : ev.eventType = EventType_WorkflowExecutionTimedOut
    · simp only [if_pos h3]
      trivial
    simp only [if_neg h3]
    by_cases h4 : ev.eventType = EventType_DecisionTaskScheduled
    · simp only [if_pos h4]
      trivial
    simp only [if_neg h4]
    by_cases h5 : ev.eventType = EventType_DecisionTaskStarted
    · simp only [if_pos h5]
      trivial
    simp only [if_neg h5]
    by_cases h6 : ev.eventType = EventType_DecisionTaskTimedOut
    · simp only [if_pos h6]
      trivial
    simp only [if_neg h6]
    by_cases h7 : ev.eventType = EventType_DecisionTaskCompleted
    · simp only [if_pos h7]
      trivial
    simp only [if_neg h7]
    by_cases h8 : ev.eventType = EventType_ActivityTaskScheduled
    · simp only [if_pos h8]
      trivial
    simp only [if_neg h8]
    by_cases h9 : ev.eventType = EventType_ActivityTaskStarted
    · simp only [if_pos h9]
      trivial
    simp only [if_neg h9]
    by_cases h10 : ev.eventType = EventType_ActivityTaskCompleted
    · simp only [if_pos h10]
      exact completed_drained _ _ _
    simp only [if_neg h10]
    by_cases h11 : ev.eventType = EventType_ActivityTaskFailed
    · simp only [if_pos h11]
      exact failed_drained _ _ _
    simp only [if_neg h11]
    by_cases h12 : ev.eventType = EventType_ActivityTaskTimedOut
    · simp only [if_pos h12]
      exact timedOut_drained _ _ _
    simp only [if_neg h12]
    by_cases h13 : ev.eventType = EventType_TimerStarted
    · simp only [if_pos h13]
      trivial
    simp only [if_neg h13]
    by_cases h14 : ev.eventType = EventType_TimerFired
    · simp only [if_pos h14]
      trivial
    simp only [if_neg h14]
    trivial

/-- Routing of a completed-activity event through both maps invokes the
registered callback and drains the decisions. -/
theorem completed_routing {κ ε : Type} (run : RunCallback κ ε) (weh : WEH κ ε)
    (E : Int) (A : String) (cb : κ) (res : Option Bytes)
    (hmap : mapLookup weh.ctx.scheduledEventIDToActivityID E = some A)
    (hcb : mapLookup weh.ctx.scheduledActivites A = some (some cb)) :
    handleActivityTaskCompleted run weh
        (some { result_ := res, scheduledEventId := some E })
      = .ret { weh with ctx :=
            { invokeCallback run weh.ctx cb res none with executeDecisions := [] } }
          (some (invokeCallback run weh.ctx cb res none).executeDecisions) none := by
  unfold handleActivityTaskCompleted
  have hred : getCompletedScheduledEventId
      (some { result_ := res, scheduledEventId := some E }) = E := rfl
  rw [hred, hmap]
  dsimp only
  rw [hcb]
  dsimp only
  rfl

/-- Routing of a failed-activity event (with `Reason` present) invokes the
registered callback with the failure error. -/
theorem failed_routing {κ ε : Type} (run : RunCallback κ ε) (weh : WEH κ ε)
    (E : Int) (A : String) (cb : κ) (r : String) (details : Option Bytes)
    (hmap : mapLookup weh.ctx.scheduledEventIDToActivityID E = some A)
    (hcb : mapLookup weh.ctx.scheduledActivites A = some (some cb)) :
    handleActivityTaskFailed run weh
        (some { reason := some r, details := details, scheduledEventId := some E })
      = .ret { weh with ctx :=
            { invokeCallback run weh.ctx cb none (some (.activityTaskFailed r details))
                with executeDecisions := [] } }
          (some (invokeCallback run weh.ctx cb none
              (some (.activityTaskFailed r details))).executeDecisions) none := by
  unfold handleActivityTaskFailed
  have hred : getFailedScheduledEventId
      (some { reason := some r, details := details, scheduledEventId := some E })
        = E := rfl
  rw [hred, hmap]
  dsimp only
  rw [hcb]
  dsimp only
  rfl

/-- Routing of a timed-out-activity event invokes the registered callback
with the timeout error. -/
theorem timedOut_routing {κ ε : Type} (run : RunCallback κ ε) (weh : WEH κ ε)
    (E : Int) (A : String) (cb : κ) (tt : Int)
    (hmap : mapLookup weh.ctx.scheduledEventIDToActivityID E = some A)
    (hcb : mapLookup weh.ctx.scheduledActivites A = some (some cb)) :
    handleActivityTaskTimedOut run weh
        (some { timeoutType := some tt, scheduledEventId := some E })
      = .ret { weh with ctx :=
            { invokeCallback run weh.ctx cb none (some (.activityTaskTimeout tt))
                with executeDecisions := [] } }
          (some (invokeCallback run weh.ctx cb none
              (some (.activityTaskTimeout tt))).executeDecisions) none := by
  unfold handleActivityTaskTimedOut
  have hred : getTimedOutScheduledEventId
      (some { timeoutType := some tt, scheduledEventId := some E }) = E := rfl
  rw [hred, hmap]
  dsimp only
  rw [hcb]
  dsimp only
  rfl

/-- A completed-activity event whose scheduled-event id has no mapping entry
is a processing error: unchanged state, no decisions. -/
theorem completed_missing {κ ε : Type} (run : RunCallback κ ε) (weh : WEH κ ε)
    (E : Int) (res : Option Bytes)
    (hmap : mapLookup weh.ctx.scheduledEventIDToActivityID E = none) :
    handleActivityTaskCompleted run weh
        (some { result_ := res, scheduledEventId := some E })
      = .ret weh none (some (.unableToFindActivityID E)) := by
  unfold handleActivityTaskCompleted
  have hred : getCompletedScheduledEventId
      (some { result_ := res, scheduledEventId := some E }) = E := rfl
  rw [hred, hmap]

/-- A failed-activity event whose scheduled-event id has no mapping entry is
a processing error: unchanged state, no decisions. -/
theorem failed_missing {κ ε : Type} (run : RunCallback κ ε) (weh : WEH κ ε)
    (E : Int) (r : String) (details : Option Bytes)
    (hmap : mapLookup weh.ctx.scheduledEventIDToActivityID E = none) :
    handleActivityTaskFailed run weh
        (some { reason := some r, details := details, scheduledEventId := some E })
      = .ret weh none (some (.unableToFindActivityID E)) := by
  unfold handleActivityTaskFailed
  have hred : getFailedScheduledEventId
      (some { reason := some r, details := details, scheduledEventId := some E })
        = E := rfl
  rw [hred, hmap]

/-- A timed-out-activity event whose scheduled-event id has no mapping entry
is a processing error: unchanged state, no decisions. -/
theorem timedOut_missing {κ ε : Type} (run : RunCallback κ ε) (weh : WEH κ ε)
    (E : Int) (tt : Int)
    (hmap : mapLookup weh.ctx.scheduledEventIDToActivityID E = none) :
    handleActivityTaskTimedOut run weh
        (some { timeoutType := some tt, scheduledEventId := some E })
      = .ret weh none (some (.unableToFindActivityID E)) := by
  unfold handleActivityTaskTimedOut
  have hred : getTimedOutScheduledEventId
      (some { timeoutType := some tt, scheduledEventId := some E }) = E := rfl
  rw [hred, hmap]

/-! ## Claim theorems -/

/-- C1: Determinism under replay — feeding the same history prefix to two
freshly constructed workflow-execution event handlers (same workflow type,
definition factory, callback semantics and initial extension state) yields
identical decision batches at every corresponding `ProcessEvent` step.  The
embedding makes processing a pure function of these inputs: no map
iteration, clock or other hidden source of nondeterminism influences the
emitted batches, so both runs agree pointwise. -/
theorem determinism_under_replay {κ ε : Type} (run : RunCallback κ ε)
    (wt : WorkflowType)
    (factory : WorkflowType → Except ErrVal (WorkflowDefinition κ ε)) (e0 : ε)
    (h1 h2 : WEH κ ε)
    (hfresh1 : h1 = newWorkflowExecutionEventHandler wt factory e0)
    (hfresh2 : h2 = newWorkflowExecutionEventHandler wt factory e0)
    (H : List (Option HistoryEvent)) (i : Nat) :
    (processHistory run h1 H).get? i = (processHistory run h2 H).get? i := by
  rw [hfresh1, hfresh2]

/-- Witness for `determinism_under_replay`: the concrete single-activity
system processing its four-event history. -/
theorem determinism_under_replay_witness :
    (processHistory run1 weh1 hist1).get? 0
      = (processHistory run1 weh1 hist1).get? 0 := by
  have hw : weh1 = newWorkflowExecutionEventHandler "wt1" (fun _ => .ok wfDef1)
      { resultSlot := none, dispatcherClosed := false
        coState := { rootPhase := 0, frameResult := none, frameErr := none
                     chanBuf := false } } := rfl
  exact determinism_under_replay run1 "wt1" (fun _ => .ok wfDef1) _ weh1 weh1 hw hw hist1 0

/-- C7: `SwapExecuteDecisions(new)` returns exactly the previously
accumulated pending decisions in append order and leaves the pending queue
equal to `new`; consequently, every `ProcessEvent` step that returns a
decision batch leaves the queue empty, so decisions produced in response to
event N are never observed in the batch returned for event N+1. -/
theorem swap_execute_decisions_drains :
    (∀ (κ ε : Type) (st : WfState κ ε) (new : List Decision),
      (SwapExecuteDecisions st new).1 = st.executeDecisions
        ∧ (SwapExecuteDecisions st new).2.executeDecisions = new) ∧
    (∀ (κ ε : Type) (run : RunCallback κ ε) (weh weh2 : WEH κ ε)
        (e : Option HistoryEvent) (ds : List Decision) (err : Option ProcErr),
      ProcessEvent run weh e = .ret weh2 (some ds) err →
      weh2.ctx.executeDecisions = []) := by
  constructor
  · intro κ ε st new
    exact ⟨rfl, rfl⟩
  · intro κ ε run weh weh2 e ds err h
    have hd := processEvent_drained run weh e
    rw [h] at hd
    exact hd

/-- Witness for `swap_execute_decisions_drains`: the swap identity on a
concrete state, and the drained queue after the concrete system's started
event (which returns a decision batch). -/
theorem swap_execute_decisions_drains_witness :
    ((SwapExecuteDecisions (initialWfState () : WfState Nat Unit) []).1
        = (initialWfState () : WfState Nat Unit).executeDecisions)
      ∧ weh1Started.ctx.executeDecisions = [] := by
  refine ⟨(swap_execute_decisions_drains.1 Nat Unit _ _).1, ?_⟩
  exact swap_execute_decisions_drains.2 Nat (DispExt Co1) run1 weh1 weh1Started
    startedEv1 batch1 none rfl

/-- C8: Counter behaviour of `GenerateActivityID` — from a freshly
constructed handler (counter 0), `n` successive calls return exactly the
decimal strings of `0, 1, …, n-1` (strictly increasing decimal integers),
for every execution of fewer than `2^31` calls (the `int32` counter range);
the sequence is a pure function of the call count alone, hence identical
across replays of the same workflow code and history. -/
theorem generate_activity_id_sequence {κ ε : Type} (wt : WorkflowType)
    (factory : WorkflowType → Except ErrVal (WorkflowDefinition κ ε)) (e0 : ε)
    (n : Nat) (h : n < 2 ^ 31) :
    genIDs (newWorkflowExecutionEventHandler wt factory e0).ctx n
      = (List.range n).map (fun k => toString ((k : Nat) : Int)) := by
  have h0 : (newWorkflowExecutionEventHandler wt factory e0 : WEH κ ε).ctx.counterID
      = ((0 : Nat) : Int) := rfl
  have hg := genIDs_from n 0 _ h0 (by omega)
  simpa using hg

/-- Witness for `generate_activity_id_sequence` at `n = 3`. -/
theorem generate_activity_id_sequence_witness :
    3 < 2 ^ 31 ∧
      genIDs (newWorkflowExecutionEventHandler "w"
          (fun _ => .error (.errorImpl "f" none)) () : WEH Nat Unit).ctx 3
        = (List.range 3).map (fun k => toString ((k : Nat) : Int)) :=
  ⟨by norm_num,
   generate_activity_id_sequence "w" (fun _ => .error (.errorImpl "f" none)) () 3
     (by norm_num)⟩

/-- C9: `ProcessEvent` rejects the nil event with a diagnostic error,
mutating nothing, and returns the fatal missing-event-handler error and no
decisions for every event whose discriminant is outside the handled
variants. -/
theorem process_event_nil_and_unknown {κ ε : Type} (run : RunCallback κ ε)
    (weh : WEH κ ε) (ev : HistoryEvent) :
    ProcessEvent run weh none = .ret weh none (some .nilEvent) ∧
    (ev.eventType ∉ handledEventTypes →
      ProcessEvent run weh (some ev)
        = .ret weh none (some (.missingEventHandler ev.eventType))) := by
  refine ⟨rfl, ?_⟩
  intro hin
  simp only [handledEventTypes, List.mem_cons, List.not_mem_nil, or_false,
    not_or] at hin
  obtain ⟨h0, h1, h2, h3, h4, h5, h6, h7, h8, h9, h10, h11, h12, h13, h14⟩ := hin
  simp [ProcessEvent, h0, h1, h2, h3, h4, h5, h6, h7, h8, h9, h10, h11, h12,
    h13, h14]

/-- Witness for `process_event_nil_and_unknown` at discriminant 99. -/
theorem process_event_nil_and_unknown_witness :
    ProcessEvent runNoop wehRouted none = .ret wehRouted none (some .nilEvent) ∧
      ProcessEvent runNoop wehRouted (some { eventType := 99 })
        = .ret wehRouted none (some (.missingEventHandler 99)) := by
  refine ⟨(process_event_nil_and_unknown runNoop wehRouted { eventType := 99 }).1, ?_⟩
  exact (process_event_nil_and_unknown runNoop wehRouted { eventType := 99 }).2
    (by decide)

/-- C2: Event-id routing — processing `ActivityTaskScheduled{eventId=E,
activityId=A}` records `E ↦ A`; a later terminal activity event (completed,
failed, or timed out) carrying `scheduledEventId=E` resolves through that
mapping to the callback registered under `A` and invokes it (the invocation
is recorded in the ghost trace by `invokeCallback` and the callback
interpretation is applied to the state); a terminal event whose scheduled
event id has no mapping entry returns a processing error, leaves the
handler unchanged (no callback invocation) and emits no decisions. -/
theorem event_id_routing {κ ε : Type} (run : RunCallback κ ε) (weh : WEH κ ε)
    (E : Int) (A : String) (cb : κ) (res : Option Bytes) (r : String)
    (details : Option Bytes) (tt : Int) :
    (ProcessEvent run weh (some (mkScheduledEvent E A))
        = .ret { weh with ctx := { weh.ctx with
                    scheduledEventIDToActivityID :=
                      mapInsert weh.ctx.scheduledEventIDToActivityID E A } }
            none none
      ∧ mapLookup (mapInsert weh.ctx.scheduledEventIDToActivityID E A) E = some A) ∧
    (mapLookup weh.ctx.scheduledEventIDToActivityID E = some A →
      mapLookup weh.ctx.scheduledActivites A = some (some cb) →
      ProcessEvent run weh (some (mkCompletedEvent E res))
        = .ret { weh with ctx :=
              { invokeCallback run weh.ctx cb res none with executeDecisions := [] } }
            (some (invokeCallback run weh.ctx cb res none).executeDecisions) none
      ∧ ProcessEvent run weh (some (mkFailedEvent E r details))
        = .ret { weh with ctx :=
              { invokeCallback run weh.ctx cb none (some (.activityTaskFailed r details))
                  with executeDecisions := [] } }
            (some (invokeCallback run weh.ctx cb none
                (some (.activityTaskFailed r details))).executeDecisions) none
      ∧ ProcessEvent run weh (some (mkTimedOutEvent E tt))
        = .ret { weh with ctx :=
              { invokeCallback run weh.ctx cb none (some (.activityTaskTimeout tt))
                  with executeDecisions := [] } }
            (some (invokeCallback run weh.ctx cb none
                (some (.activityTaskTimeout tt))).executeDecisions) none) ∧
    (mapLookup weh.ctx.scheduledEventIDToActivityID E = none →
      ProcessEvent run weh (some (mkCompletedEvent E res))
        = .ret weh none (some (.unableToFindActivityID E))
      ∧ ProcessEvent run weh (some (mkFailedEvent E r details))
        = .ret weh none (some (.unableToFindActivityID E))
      ∧ ProcessEvent run weh (some (mkTimedOutEvent E tt))
        = .ret weh none (some (.unableToFindActivityID E))) := by
  refine ⟨⟨rfl, mapLookup_mapInsert_self _ _ _⟩, ?_, ?_⟩
  · intro hmap hcb
    exact ⟨completed_routing run weh E A cb res hmap hcb,
           failed_routing run weh E A cb r details hmap hcb,
           timedOut_routing run weh E A cb tt hmap hcb⟩
  · intro hmap
    exact ⟨completed_missing run weh E res hmap,
           failed_missing run weh E r details hmap,
           timedOut_missing run weh E tt hmap⟩

/-- Witness for `event_id_routing`: a handler with `5 ↦ "0"` recorded and
callback `7` registered under `"0"`; a completed event with
`scheduledEventId = 5` invokes it. -/
theorem event_id_routing_witness :
    mapLookup (mapInsert wehRouted.ctx.scheduledEventIDToActivityID 5 "0") 5
        = some "0"
      ∧ ProcessEvent runNoop wehRouted
          (some (mkCompletedEvent 5 (some [9])))
        = .ret { wehRouted with ctx :=
              { invokeCallback runNoop wehRouted.ctx 7 (some [9]) none
                  with executeDecisions := [] } }
            (some (invokeCallback runNoop wehRouted.ctx 7 (some [9]) none).executeDecisions)
            none := by
  refine ⟨(event_id_routing runNoop wehRouted 5 "0" 7 (some [9]) "boom"
    (some [1]) 3).1.2, ?_⟩
  exact ((event_id_routing runNoop wehRouted 5 "0" 7 (some [9]) "boom"
    (some [1]) 3).2.1 rfl rfl).1

/-- C10: `handleActivityTaskFailed` dereferences the event's `Reason` field
unconditionally once the mapping resolves to a registered non-nil callback:
an absent (nil) `Reason` is a nil-pointer panic, and under the precondition
that `Reason` is present the handler builds
`ActivityTaskFailedError{reason, details}` from the event and passes it to
the callback. -/
theorem failed_reason_dereference {κ ε : Type} (run : RunCallback κ ε)
    (weh : WEH κ ε) (E : Int) (A : String) (cb : κ)
    (a : ActivityTaskFailedEventAttributes)
    (hsid : a.scheduledEventId = some E)
    (hmap : mapLookup weh.ctx.scheduledEventIDToActivityID E = some A)
    (hcb : mapLookup weh.ctx.scheduledActivites A = some (some cb)) :
    (a.reason = none → handleActivityTaskFailed run weh (some a) = .nilPanic) ∧
    (∀ r, a.reason = some r →
      handleActivityTaskFailed run weh (some a)
        = .ret { weh with ctx :=
              { invokeCallback run weh.ctx cb none
                  (some (.activityTaskFailed r a.details))
                  with executeDecisions := [] } }
            (some (invokeCallback run weh.ctx cb none
                (some (.activityTaskFailed r a.details))).executeDecisions) none) := by
  have hred : getFailedScheduledEventId (some a) = E := by
    simp [getFailedScheduledEventId, hsid]
  constructor
  · intro hr
    unfold handleActivityTaskFailed
    rw [hred, hmap]
    dsimp only
    rw [hcb]
    dsimp only
    rw [hr]
  · intro r hr
    unfold handleActivityTaskFailed
    rw [hred, hmap]
    dsimp only
    rw [hcb]
    dsimp only
    rw [hr]
    dsimp only
    rfl

/-- Witness for `failed_reason_dereference`: nil `Reason` panics; present
`Reason` reaches the callback as an `ActivityTaskFailedError`. -/
theorem failed_reason_dereference_witness :
    handleActivityTaskFailed runNoop wehRouted (some failedAttrsNilReason)
        = .nilPanic
      ∧ handleActivityTaskFailed runNoop wehRouted (some failedAttrsReason)
        = .ret { wehRouted with ctx :=
              { invokeCallback runNoop wehRouted.ctx 7 none
                  (some (.activityTaskFailed "boom" (some [3])))
                  with executeDecisions := [] } }
            (some (invokeCallback runNoop wehRouted.ctx 7 none
                (some (.activityTaskFailed "boom" (some [3])))).executeDecisions)
            none := by
  constructor
  · exact (failed_reason_dereference runNoop wehRouted 5 "0" 7
      failedAttrsNilReason rfl rfl rfl).1 rfl
  · exact (failed_reason_dereference runNoop wehRouted 5 "0" 7
      failedAttrsReason rfl rfl rfl).2 "boom" rfl

/-- C3 (the failing run): processing the four-event history `hist1` —
started, scheduled, then the matching completed event delivered twice —
through the concrete single-activity system calls `Complete` twice: once
when the workflow returns its result, and again when the second terminal
event re-invokes the still-registered callback, whose `executeDispatcher`
re-pump of the closed dispatcher is a rejected no-op after which the stale
non-empty result slot is reported a second time. -/
theorem complete_called_twice :
    (runHandler run1 weh1 hist1).ctx.completeCalls
      = [(some [121], none), (some [121], none)] := by decide

/-- C4 (counterexample): two `ExecuteActivity` calls resolving to the same
user-chosen activity id `"x"` — the second silently replaces the first
callback in `scheduledActivites` (the entry ends up holding callback `2`,
not `1`) and appends a second decision; no fatal error occurs, and none can:
`ExecuteActivity` has no error path. -/
theorem duplicate_activity_id_replaces :
    mapLookup (ExecuteActivity (ExecuteActivity
          (initialWfState () : WfState Nat Unit) dupParams (some 1))
          dupParams (some 2)).scheduledActivites "x" = some (some 2)
      ∧ (ExecuteActivity (ExecuteActivity (initialWfState () : WfState Nat Unit)
          dupParams (some 1)) dupParams (some 2)).executeDecisions.length = 2 := by
  decide

/-- C4 (amended): a second `ExecuteActivity` call with the same activity id
silently replaces the previously registered callback in
`scheduledActivites`; the registration is an unconditional map insert with
no collision check. -/
theorem execute_activity_silent_replacement {κ ε : Type} (st : WfState κ ε)
    (p : ExecuteActivityParameters) (cb : Option κ) (aid : String)
    (h : p.ActivityID = some aid) :
    mapLookup (ExecuteActivity st p cb).scheduledActivites aid = some cb := by
  unfold ExecuteActivity
  rw [h]
  dsimp only
  exact mapLookup_mapInsert_self _ _ _

/-- Witness for `execute_activity_silent_replacement`: the second of two
registrations under `"x"` wins. -/
theorem execute_activity_silent_replacement_witness :
    dupParams.ActivityID = some "x"
      ∧ mapLookup (ExecuteActivity (ExecuteActivity
          (initialWfState () : WfState Nat Unit) dupParams (some 1))
          dupParams (some 2)).scheduledActivites "x" = some (some 2) :=
  ⟨rfl, execute_activity_silent_replacement _ dupParams (some 2) "x" rfl⟩

/-- C5 (counterexample): a request carrying heartbeat timeout 7 — the
decision `ExecuteActivity` appends carries no heartbeat timeout (the
attribute field stays nil), so the attributes are not populated from every
field of the request. -/
theorem heartbeat_timeout_not_populated :
    hbParams.HeartbeatTimeoutSeconds = 7
      ∧ ((ExecuteActivity (initialWfState () : WfState Nat Unit) hbParams none
          ).executeDecisions.map
            (fun d => d.scheduleActivityTaskDecisionAttributes.map
              (fun a => a.heartbeatTimeoutSeconds)))
        = [some none] := by
  decide

/-- C5 (amended): `ExecuteActivity` appends exactly one
`ScheduleActivityTask` decision whose attributes are populated from the
request's activity id (user-provided, else the generated one), activity
type, task list name, input bytes, and the schedule-to-close,
schedule-to-start and start-to-close timeouts; the request's heartbeat
timeout is NOT copied (the attribute stays nil); and the callback is
registered in `scheduledActivites` under the resolved activity id. -/
theorem execute_activity_populates {κ ε : Type} (st : WfState κ ε)
    (p : ExecuteActivityParameters) (cb : Option κ) :
    (ExecuteActivity st p cb).executeDecisions = st.executeDecisions ++
        [{ decisionType := some DecisionType_ScheduleActivityTask
           scheduleActivityTaskDecisionAttributes := some
             { activityId := some (activityIdOf st p)
               activityType := some p.ActivityType
               taskList := some { name := some p.TaskListName }
               input := p.Input
               scheduleToCloseTimeoutSeconds := some p.ScheduleToCloseTimeoutSeconds
               scheduleToStartTimeoutSeconds := some p.ScheduleToStartTimeoutSeconds
               startToCloseTimeoutSeconds := some p.StartToCloseTimeoutSeconds
               heartbeatTimeoutSeconds := none } }]
      ∧ mapLookup (ExecuteActivity st p cb).scheduledActivites (activityIdOf st p)
          = some cb := by
  cases hp : p.ActivityID with
  | none =>
    unfold ExecuteActivity activityIdOf
    rw [hp]
    dsimp only
    exact ⟨rfl, mapLookup_mapInsert_self _ _ _⟩
  | some a =>
    unfold ExecuteActivity activityIdOf
    rw [hp]
    dsimp only
    exact ⟨rfl, mapLookup_mapInsert_self _ _ _⟩

/-- C6: the branches of `executeDispatcher` — a pump reporting a recovered
panic leads to exactly one `Complete(nil, Error{reason = panic message,
details = stack-trace bytes})` report and a closed dispatcher, with no
workflow result reported; a successful pump with an empty result slot
returns the pumped state unchanged: no `Complete`, dispatcher not closed. -/
theorem execute_dispatcher_branches {κ σ : Type}
    (pump : DSt κ σ → DSt κ σ × Option PanicError) (c : DSt κ σ)
    (p : PanicError) :
    ((pump c).2 = some p →
      executeDispatcher pump c
          = closeDispatcher (Complete (pump c).1 none
              (some (.errorImpl p.msg (some (strBytes p.stackTrace)))))
        ∧ (executeDispatcher pump c).completeCalls
            = (pump c).1.completeCalls
              ++ [(none, some (.errorImpl p.msg (some (strBytes p.stackTrace))))]
        ∧ (executeDispatcher pump c).ext.dispatcherClosed = true) ∧
    ((pump c).2 = none → (pump c).1.ext.resultSlot = none →
      executeDispatcher pump c = (pump c).1) := by
  constructor
  · intro hp
    unfold executeDispatcher
    rcases hpc : pump c with ⟨c1, pe⟩
    rw [hpc] at hp
    dsimp only at hp ⊢
    subst hp
    exact ⟨rfl, rfl, rfl⟩
  · intro hp hr
    unfold executeDispatcher
    rcases hpc : pump c with ⟨c1, pe⟩
    rw [hpc] at hp hr
    dsimp only at hp hr ⊢
    subst hp
    rw [hr]

/-- Witness for `execute_dispatcher_branches`: a pump that panics with
message "nope", and an idle pump over an empty result slot. -/
theorem execute_dispatcher_branches_witness :
    ((panicPump cIdle).2 = some { msg := "nope", stackTrace := "st" }
      ∧ (executeDispatcher panicPump cIdle).completeCalls
          = (panicPump cIdle).1.completeCalls
            ++ [(none, some (.errorImpl "nope" (some (strBytes "st"))))])
    ∧ ((idlePump cIdle).2 = none ∧ (idlePump cIdle).1.ext.resultSlot = none
      ∧ executeDispatcher idlePump cIdle = (idlePump cIdle).1) := by
  refine ⟨⟨rfl, ?_⟩, rfl, rfl, ?_⟩
  · exact ((execute_dispatcher_branches panicPump cIdle ⟨"nope", "st"⟩).1 rfl).2.1
  · exact (execute_dispatcher_branches idlePump cIdle ⟨"nope", "st"⟩).2 rfl rfl

end Flow
